import Mathlib

/-!
Verification of the Identity & Relationship Core of the pet-adoption backend.

The Python source (SQLAlchemy async repositories and FastAPI routers) is
shallowly embedded: database tables become lists of row structures, the
per-request database session becomes explicit state passing, commits become
pure state transitions, raised exceptions become `Except` errors, and
timestamps become natural numbers.  The external collaborators (passlib
bcrypt hashing, the jose JWT library) are modelled at their interface
boundary as injective hashing / tagged signed payloads.

Sections follow the source files:
  * app/repositories/matching_repository.py  (likes, matches)
  * app/routers/animals.py                   (like / dislike endpoints)
  * app/repositories/user_repository.py      (sessions)
  * app/routers/auth.py                      (refresh rotation)
  * app/security.py and app/deps.py          (tokens)
-/

namespace App

/-- Errors raised by repository code: `ValueError msg` mirrors Python
`ValueError(msg)`, `uniqueViolation c` mirrors the database driver's
IntegrityError for the unique constraint named `c`. -/
inductive DBError where
  | valueError (msg : String)
  | uniqueViolation (constraint : String)
deriving DecidableEq

/-- Row of `animals` (app/models.py, class Animal): only the columns the
claims depend on. -/
structure Animal where
  id : Nat
  owner_user_id : Nat
  status : String
deriving DecidableEq

/-- Row of `animal_likes` (app/models.py, class AnimalLike); unique
constraint uq_animal_likes_from_user_animal on (from_user_id, animal_id);
`updated_at` has onupdate=utcnow. -/
structure AnimalLike where
  id : Nat
  from_user_id : Nat
  animal_id : Nat
  result : String
  created_at : Nat
  updated_at : Nat
deriving DecidableEq

/-- Row of `user_matches` (app/models.py, class UserMatch); unique
constraint uq_user_matches_pair on (user_id1, user_id2). -/
structure UserMatch where
  id : Nat
  user_id1 : Nat
  user_id2 : Nat
deriving DecidableEq

/-- The relational state seen by matching_repository.py and
routers/animals.py: the three tables plus the autoincrement counters. -/
structure MatchDB where
  animals : List Animal
  likes : List AnimalLike
  user_matches : List UserMatch
  nextLikeId : Nat
  nextMatchId : Nat
deriving DecidableEq

/-- All `animal_likes` rows for one (from_user_id, animal_id) pair. -/
def likesForPair (db : MatchDB) (u a : Nat) : List AnimalLike :=
  db.likes.filter (fun l => l.from_user_id == u && l.animal_id == a)

/-- All `user_matches` rows for one ordered (user_id1, user_id2) pair. -/
def matchesForPair (db : MatchDB) (u1 u2 : Nat) : List UserMatch :=
  db.user_matches.filter (fun m => m.user_id1 == u1 && m.user_id2 == u2)

/-- matching_repository._normalize_match_pair: raises ValueError on a
self-match, otherwise returns the pair ordered ascending. -/
def _normalize_match_pair (user_a_id user_b_id : Nat) : Except DBError (Nat × Nat) :=
  if user_a_id == user_b_id then
    .error (.valueError "Match between the same user is not allowed")
  else if user_a_id < user_b_id then .ok (user_a_id, user_b_id)
  else .ok (user_b_id, user_a_id)

/-- matching_repository.create_or_update_like: validates `result`, then
SELECTs the row for (from_user_id, animal_id); inserts a new row if absent,
otherwise overwrites `result` (the ORM onupdate hook bumps `updated_at`). -/
def create_or_update_like (db : MatchDB) (now : Nat) (from_user_id animal_id : Nat)
    (result : String) : Except DBError (MatchDB × AnimalLike) :=
  if ¬ (result = "like" ∨ result = "dislike") then
    -- source message: result must be 'like' or 'dislike'
    .error (.valueError "result must be like or dislike")
  else
    match db.likes.find? (fun l => l.from_user_id == from_user_id &&
        l.animal_id == animal_id) with
    | none =>
        let like : AnimalLike :=
          { id := db.nextLikeId, from_user_id := from_user_id, animal_id := animal_id,
            result := result, created_at := now, updated_at := now }
        .ok ({ db with likes := db.likes ++ [like], nextLikeId := db.nextLikeId + 1 }, like)
    | some existing =>
        let updated : AnimalLike := { existing with result := result, updated_at := now }
        .ok ({ db with
                likes := db.likes.map (fun l => if l.id == existing.id then updated else l) },
             updated)

/-- Folds a sequence of create_or_update_like calls for one
(from_user_id, animal_id) pair; each call carries its wall-clock time and
its `result` argument. -/
def runReactions (db : MatchDB) (u a : Nat) : List (Nat × String) → Except DBError MatchDB
  | [] => .ok db
  | c :: rest =>
    match create_or_update_like db c.1 u a c.2 with
    | .error e => .error e
    | .ok (db', _) => runReactions db' u a rest

/-- The SELECT half of matching_repository.get_or_create_match: normalizes
the pair and looks up the existing row by the ordered pair. -/
def gocmSelect (db : MatchDB) (user_a_id user_b_id : Nat) :
    Except DBError ((Nat × Nat) × Option UserMatch) :=
  match _normalize_match_pair user_a_id user_b_id with
  | .error e => .error e
  | .ok (u1, u2) =>
      .ok ((u1, u2), db.user_matches.find? (fun m => m.user_id1 == u1 && m.user_id2 == u2))

/-- The INSERT half of matching_repository.get_or_create_match: returns the
row found by the SELECT with created=false, otherwise db.add + db.commit.
The commit checks the unique constraint uq_user_matches_pair; the source
wraps the commit in no try/except, so a violation propagates. -/
def gocmInsert (db : MatchDB) (sel : (Nat × Nat) × Option UserMatch) :
    Except DBError (MatchDB × UserMatch × Bool) :=
  match sel with
  | (_, some existing) => .ok (db, existing, false)
  | ((u1, u2), none) =>
      if db.user_matches.any (fun m => m.user_id1 == u1 && m.user_id2 == u2) then
        .error (.uniqueViolation "uq_user_matches_pair")
      else
        let m : UserMatch := ⟨db.nextMatchId, u1, u2⟩
        .ok ({ db with user_matches := db.user_matches ++ [m],
                       nextMatchId := db.nextMatchId + 1 }, m, true)

/-- matching_repository.get_or_create_match run by a single request:
SELECT then INSERT against the same state. -/
def get_or_create_match (db : MatchDB) (user_a_id user_b_id : Nat) :
    Except DBError (MatchDB × UserMatch × Bool) :=
  match gocmSelect db user_a_id user_b_id with
  | .error e => .error e
  | .ok sel => gocmInsert db sel

/-- Two concurrent get_or_create_match calls interleaved at their await
points so that both SELECTs read the same snapshot before either INSERT
commits; the commits then land one after the other.  Returns the final
state and the two created flags, or the first propagated error. -/
def get_or_create_match_race (db : MatchDB) (a1 b1 a2 b2 : Nat) :
    Except DBError (MatchDB × Bool × Bool) :=
  match gocmSelect db a1 b1, gocmSelect db a2 b2 with
  | .error e, _ => .error e
  | .ok _, .error e => .error e
  | .ok sel1, .ok sel2 =>
    match gocmInsert db sel1 with
    | .error e => .error e
    | .ok (db1, _, created1) =>
      match gocmInsert db1 sel2 with
      | .error e => .error e
      | .ok (db2, _, created2) => .ok (db2, created1, created2)

/-- matching_repository.detect_mutual_like_and_create_match: resolves the
target animal's owner, checks for a reciprocal like on any of the liker's
animals, and on reciprocity delegates to get_or_create_match. -/
def detect_mutual_like_and_create_match (db : MatchDB) (from_user_id target_animal_id : Nat) :
    Except DBError (MatchDB × Option UserMatch × Bool) :=
  match db.animals.find? (fun a => a.id == target_animal_id) with
  | none => .ok (db, none, false)
  | some animal =>
    let target_user_id := animal.owner_user_id
    if target_user_id == from_user_id then .ok (db, none, false)
    else
      let mutual_like_exists := db.likes.any (fun l =>
        l.from_user_id == target_user_id && l.result == "like" &&
        db.animals.any (fun an => an.owner_user_id == from_user_id && an.id == l.animal_id))
      if !mutual_like_exists then .ok (db, none, false)
      else
        match get_or_create_match db from_user_id target_user_id with
        | .error e => .error e
        | .ok (db', m, created) => .ok (db', some m, created)

/-- HTTP-level outcomes of routers/animals.py endpoints. -/
inductive ApiError where
  | notFound (detail : String)
  | badRequest (detail : String)
  | dbError (e : DBError)
deriving DecidableEq

/-- Response body of the like / dislike endpoints (schemas.AnimalLikeResult,
timestamps omitted). -/
structure AnimalLikeResult where
  animal_id : Nat
  from_user_id : Nat
  result : String
  match_created : Bool
  match_user_id : Option Nat
  match_id : Option Nat
deriving DecidableEq

/-- routers/animals.py like_animal: 404 when the animal is absent or not
active, 400 on a self-like, else records the reaction and runs mutual-match
detection. -/
def like_animal (db : MatchDB) (now : Nat) (current_user_id animal_id : Nat) :
    Except ApiError (MatchDB × AnimalLikeResult) :=
  match db.animals.find? (fun a => a.id == animal_id) with
  | none => .error (.notFound "Animal not found")
  | some animal =>
    if animal.status ≠ "active" then .error (.notFound "Animal not found")
    else if animal.owner_user_id == current_user_id then
      .error (.badRequest "Cannot like your own animal")
    else
      match create_or_update_like db now current_user_id animal.id "like" with
      | .error e => .error (.dbError e)
      | .ok (db1, _) =>
        match detect_mutual_like_and_create_match db1 current_user_id animal.id with
        | .error e => .error (.dbError e)
        | .ok (db2, mtch, created) =>
          .ok (db2,
            { animal_id := animal.id, from_user_id := current_user_id, result := "like",
              match_created := created,
              match_user_id :=
                match mtch with
                | some m =>
                  if m.user_id1 ≠ current_user_id then some m.user_id1
                  else if m.user_id2 ≠ current_user_id then some m.user_id2
                  else none
                | none => none,
              match_id := mtch.map (fun m => m.id) })

/-- routers/animals.py dislike_animal: same pre-checks as like_animal,
records the dislike, never runs match detection. -/
def dislike_animal (db : MatchDB) (now : Nat) (current_user_id animal_id : Nat) :
    Except ApiError (MatchDB × AnimalLikeResult) :=
  match db.animals.find? (fun a => a.id == animal_id) with
  | none => .error (.notFound "Animal not found")
  | some animal =>
    if animal.status ≠ "active" then .error (.notFound "Animal not found")
    else if animal.owner_user_id == current_user_id then
      .error (.badRequest "Cannot dislike your own animal")
    else
      match create_or_update_like db now current_user_id animal.id "dislike" with
      | .error e => .error (.dbError e)
      | .ok (db1, _) =>
        .ok (db1,
          { animal_id := animal.id, from_user_id := current_user_id, result := "dislike",
            match_created := false, match_user_id := none, match_id := none })

/-- Row of `user_sessions` (app/models.py, class UserSession): the columns
the session lifecycle touches. -/
structure UserSession where
  id : Nat
  user_id : Nat
  device_id : Option Nat
  refresh_token_hash : String
  refresh_expires_at : Nat
  ip_address : Option String
  user_agent : Option String
  is_current : Bool
  revoked_at : Option Nat
  revoke_reason : Option String
  last_access_at : Option Nat
deriving DecidableEq

/-- The relational state seen by the session side of user_repository.py:
the `user_sessions` table plus its autoincrement counter. -/
structure SessionDB where
  sessions : List UserSession
  nextSessionId : Nat
deriving DecidableEq

/-- Modelled collaborator (passlib bcrypt behind security.hash_refresh_token):
abstracted as an injective digest function over plaintexts. -/
def hash_refresh_token (token : String) : String := token

/-- security.verify_refresh_token (passlib verify): re-derives and
compares. -/
def verify_refresh_token (token hashed : String) : Bool :=
  hashed == hash_refresh_token token

/-- user_repository.create_session: hashes the plaintext and inserts a new
current, unrevoked session row (one commit). -/
def create_session (db : SessionDB) (now : Nat) (user_id : Nat) (device_id : Option Nat)
    (refresh_token_plain : String) (refresh_expires_at : Nat)
    (ip : Option String) (user_agent : Option String) : SessionDB × UserSession :=
  let session : UserSession :=
    { id := db.nextSessionId, user_id := user_id, device_id := device_id,
      refresh_token_hash := hash_refresh_token refresh_token_plain,
      refresh_expires_at := refresh_expires_at,
      ip_address := ip, user_agent := user_agent,
      is_current := true, revoked_at := none, revoke_reason := none,
      last_access_at := some now }
  ({ sessions := db.sessions ++ [session], nextSessionId := db.nextSessionId + 1 }, session)

/-- user_repository.get_session_by_refresh_token: SELECT the user's rows
with is_current true and revoked_at null, then verify the plaintext
against each stored hash in turn; first match or none.  Expiry is not part
of the filter. -/
def get_session_by_refresh_token (db : SessionDB) (user_id : Nat)
    (refresh_token_plain : String) : Option UserSession :=
  (db.sessions.filter (fun s => s.user_id == user_id && s.is_current &&
      s.revoked_at == none)).find?
    (fun s => verify_refresh_token refresh_token_plain s.refresh_token_hash)

/-- user_repository.revoke_session: sets is_current false, revoked_at now,
revoke_reason reason on the given row and commits. -/
def revoke_session (db : SessionDB) (now : Nat) (session_id : Nat) (reason : String) :
    SessionDB :=
  { db with sessions := db.sessions.map (fun s =>
      if s.id == session_id then
        { s with is_current := false, revoked_at := some now, revoke_reason := some reason }
      else s) }

/-- A session is ACTIVE (spec section 3): current, not revoked, not yet
expired. -/
def isActiveSession (now : Nat) (s : UserSession) : Bool :=
  s.is_current && s.revoked_at == none && now < s.refresh_expires_at

/-- HTTP-level outcome of routers/auth.py refresh_tokens. -/
inductive RefreshOutcome where
  | http401 (detail : String)
  | success (new_session_id : Nat)
deriving DecidableEq

/-- routers/auth.py refresh_tokens after user resolution (the phone has
been resolved to an existing active user): looks up the session by the
presented plaintext, rejects unknown / non-current / revoked sessions,
revokes an expired session with reason expired before rejecting, and
otherwise rotates: revoke_session with reason rotation (first commit)
followed by create_session carrying forward device_id, ip and user_agent
(second commit). -/
def refresh_tokens (db : SessionDB) (now : Nat) (user_id : Nat)
    (refresh_token_plain : String) (new_refresh : String) (new_refresh_expires : Nat) :
    SessionDB × RefreshOutcome :=
  match get_session_by_refresh_token db user_id refresh_token_plain with
  | none => (db, .http401 "Invalid refresh token")
  | some session =>
    if ¬ session.is_current ∨ session.revoked_at ≠ none then
      (db, .http401 "Invalid refresh token")
    else if session.refresh_expires_at < now then
      (revoke_session db now session.id "expired", .http401 "Refresh token expired")
    else
      let db1 := revoke_session db now session.id "rotation"
      let res := create_session db1 now user_id session.device_id new_refresh
        new_refresh_expires session.ip_address session.user_agent
      (res.1, .success res.2.id)

/-- The two commit-separated states of the rotation inside refresh_tokens:
the state right after revoke_session's commit (auth.py line 290) and the
state after create_session's commit (auth.py lines 291 to 299). -/
def rotationStates (db : SessionDB) (now : Nat) (session : UserSession)
    (new_refresh : String) (new_refresh_expires : Nat) : SessionDB × SessionDB :=
  let db1 := revoke_session db now session.id "rotation"
  (db1, (create_session db1 now session.user_id session.device_id new_refresh
    new_refresh_expires session.ip_address session.user_agent).1)

/-- The session row created by the rotation inside refresh_tokens. -/
def rotationNewSession (db : SessionDB) (now : Nat) (s : UserSession)
    (new_refresh : String) (new_refresh_expires : Nat) : UserSession :=
  (create_session (revoke_session db now s.id "rotation") now s.user_id s.device_id
    new_refresh new_refresh_expires s.ip_address s.user_agent).2

/-- Number of ACTIVE sessions among the rows of one rotation lineage (the
old session row and its replacement). -/
def lineageActiveCount (db : SessionDB) (now : Nat) (oldId newId : Nat) : Nat :=
  (db.sessions.filter (fun s => (s.id == oldId || s.id == newId) &&
      isActiveSession now s)).length

/-- Claims carried by a JWT payload; `tokType` is the payload key named
type. -/
structure JwtClaims where
  sub : String
  iat : Nat
  exp : Nat
  tokType : String
deriving DecidableEq

/-- Wire-level access token: either unparseable, or a payload signed under
some key. -/
inductive Jwt where
  | malformed
  | signed (claims : JwtClaims) (key : String)
deriving DecidableEq

/-- Modelled collaborator (jose.jwt.decode with default options): returns
the payload when the token parses, its signature verifies against the
configured secret, and its exp claim has not passed; any other case raises
JWTError (here: none). -/
def jwtDecode (secret : String) (now : Nat) : Jwt → Option JwtClaims
  | .malformed => none
  | .signed c k => if k == secret then (if now < c.exp then some c else none) else none

/-- security.decode_token: jose decode under the configured secret; any
JWTError is re-raised as ValueError Invalid token. -/
def decode_token (secret : String) (now : Nat) (token : Jwt) : Except String JwtClaims :=
  match jwtDecode secret now token with
  | none => .error "Invalid token"
  | some payload => .ok payload

/-- The access-token validation phase of deps.get_current_user (deps.py
lines 42 to 48): decode_token, then the type-discriminator check; every
failure raises the one 401 response Could not validate credentials. -/
def decode_access_token (secret : String) (now : Nat) (token : Jwt) :
    Except String JwtClaims :=
  match decode_token secret now token with
  | .error _ => .error "Could not validate credentials"
  | .ok payload =>
    if payload.tokType ≠ "access" then .error "Could not validate credentials"
    else .ok payload

/-- Well-formedness the database enforces on `animal_likes`: every row id
is below the autoincrement counter, and ids are unique (primary key). -/
def LikesWF (db : MatchDB) : Prop :=
  (∀ l ∈ db.likes, l.id < db.nextLikeId) ∧
  (db.likes.map (fun l => l.id)).Nodup

/-- The state left by get_or_create_match's INSERT branch: the normalized
row appended under the next autoincrement id. -/
def gocmInsertedDB (db : MatchDB) (lo hi : Nat) : MatchDB :=
  { db with user_matches := db.user_matches ++ [⟨db.nextMatchId, lo, hi⟩],
            nextMatchId := db.nextMatchId + 1 }

/-- Test fixture: an empty matching store. -/
def emptyMatchDB : MatchDB := ⟨[], [], [], 0, 0⟩

/-- Test fixture: one animal (id 3, owner 9) whose status is not active. -/
def hiddenAnimalDB : MatchDB := ⟨[⟨3, 9, "hidden"⟩], [], [], 0, 0⟩

/-- Test fixture: one active animal (id 3, owner 9), no reactions yet. -/
def activeAnimalDB : MatchDB := ⟨[⟨3, 9, "active"⟩], [], [], 0, 0⟩

/-- Test fixture: `activeAnimalDB` after user 1 likes animal 3 at time 5. -/
def activeAnimalLikedDB : MatchDB :=
  ⟨[⟨3, 9, "active"⟩], [⟨0, 1, 3, "like", 5, 5⟩], [], 1, 0⟩

/-- Test fixture: `activeAnimalDB` after user 1 dislikes animal 3 at
time 5. -/
def activeAnimalDislikedDB : MatchDB :=
  ⟨[⟨3, 9, "active"⟩], [⟨0, 1, 3, "dislike", 5, 5⟩], [], 1, 0⟩

/-- Test fixture: a current, unrevoked session whose refresh_expires_at
(10) lies in the past relative to the test clock 50. -/
def expiredSessRow : UserSession :=
  ⟨1, 1, none, "t1", 10, none, none, true, none, none, none⟩

/-- Test fixture: a session store holding only `expiredSessRow`. -/
def expiredSessDB : SessionDB := ⟨[expiredSessRow], 2⟩

/-- Test fixture: a current, unrevoked session expiring at 100, still valid
at the test clock 50. -/
def rotOldSession : UserSession :=
  ⟨1, 1, some 7, "t1", 100, some "ip", some "ua", true, none, none, none⟩

/-- Test fixture: a session store holding only `rotOldSession`. -/
def rotDB : SessionDB := ⟨[rotOldSession], 2⟩

end App

namespace App

/-- Rows of the revoked id are non-current, revoked and inactive after
revoke_session. -/
theorem revoke_session_mem_facts (db : SessionDB) (now sid : Nat) (reason : String) :
    ∀ x ∈ (revoke_session db now sid reason).sessions, x.id = sid →
      x.is_current = false ∧ x.revoked_at = some now ∧ x.revoke_reason = some reason ∧
      ∀ t, isActiveSession t x = false := by
  intro x hx hid
  unfold revoke_session at hx
  simp only [List.mem_map] at hx
  obtain ⟨y, _, hy⟩ := hx
  by_cases h : y.id == sid
  · rw [if_pos h] at hy
    subst hy
    exact ⟨rfl, rfl, rfl, fun t => by simp [isActiveSession]⟩
  · rw [if_neg h] at hy
    subst hy
    exact absurd (by simp [hid] : (y.id == sid) = true) h

/-- What a successful get_session_by_refresh_token lookup guarantees about
the returned row. -/
theorem get_session_found_facts {db : SessionDB} {uid : Nat} {tok : String}
    {s : UserSession} (h : get_session_by_refresh_token db uid tok = some s) :
    s ∈ db.sessions ∧ s.user_id = uid ∧ s.is_current = true ∧ s.revoked_at = none ∧
    verify_refresh_token tok s.refresh_token_hash = true := by
  unfold get_session_by_refresh_token at h
  have hv := List.find?_some h
  have hm := List.mem_of_find?_eq_some h
  rw [List.mem_filter] at hm
  obtain ⟨hmem, hq⟩ := hm
  simp only [Bool.and_eq_true, beq_iff_eq] at hq
  exact ⟨hmem, hq.1.1, hq.1.2, hq.2, hv⟩

/-- After revoking the old row, the rotation lineage (old id, replacement
id) has no ACTIVE session as long as the replacement id is unused. -/
theorem lineage_after_revoke_zero (db : SessionDB) (now sid nid : Nat) (reason : String)
    (hfresh : ∀ x ∈ db.sessions, x.id ≠ nid) :
    lineageActiveCount (revoke_session db now sid reason) now sid nid = 0 := by
  unfold lineageActiveCount revoke_session
  simp only [List.length_eq_zero]
  rw [List.filter_eq_nil_iff]
  intro x hx
  simp only [List.mem_map] at hx
  obtain ⟨y, hy, hxy⟩ := hx
  by_cases h : y.id == sid
  · rw [if_pos h] at hxy
    subst hxy
    simp [isActiveSession]
  · rw [if_neg h] at hxy
    subst hxy
    simp only [Bool.and_eq_true, Bool.or_eq_true, beq_iff_eq]
    intro hcontra
    rcases hcontra.1 with h1 | h2
    · exact h (by simp [h1])
    · exact hfresh y hy h2

/-- C7: `_normalize_match_pair` is commutative and canonicalizing: for
distinct a and b it is order-insensitive and returns the pair sorted
strictly ascending; on equal arguments it fails with the self-match
ValueError. -/
theorem normalize_pair_comm_asc_self (a b x : Nat) :
    (a ≠ b →
      _normalize_match_pair a b = _normalize_match_pair b a ∧
      ∃ lo hi, _normalize_match_pair a b = .ok (lo, hi) ∧ lo < hi) ∧
    _normalize_match_pair x x =
      .error (.valueError "Match between the same user is not allowed") := by
  constructor
  · intro hab
    unfold _normalize_match_pair
    rcases Nat.lt_trichotomy a b with h | h | h
    · have hba : ¬ b < a := Nat.lt_asymm h
      simp [Nat.ne_of_lt h, (Nat.ne_of_lt h).symm, h, hba]
      exact ⟨a, b, ⟨rfl, rfl⟩, h⟩
    · exact absurd h hab
    · have hab' : ¬ a < b := Nat.lt_asymm h
      simp [Nat.ne_of_lt h, (Nat.ne_of_lt h).symm, h, hab']
      exact ⟨b, a, ⟨rfl, rfl⟩, h⟩
  · simp [_normalize_match_pair]

/-- Witness for C7 at (a, b, x) = (2, 1, 3). -/
theorem normalize_pair_comm_asc_self_witness :
    (_normalize_match_pair 2 1 = _normalize_match_pair 1 2 ∧
      ∃ lo hi, _normalize_match_pair 2 1 = .ok (lo, hi) ∧ lo < hi) ∧
    _normalize_match_pair 3 3 =
      .error (.valueError "Match between the same user is not allowed") :=
  ⟨(normalize_pair_comm_asc_self 2 1 3).1 (by decide),
   (normalize_pair_comm_asc_self 2 1 3).2⟩

/-- C5: the access-token validation path verifies signature and expiry and
fails closed: a malformed token, a token signed under a different key, an
expired token and a mis-typed token are all rejected with the one uniform
error, and every well-formed unexpired access token yields exactly its
embedded claims. -/
theorem decode_access_token_fails_closed (secret k : String) (now : Nat) (c : JwtClaims) :
    decode_access_token secret now .malformed = .error "Could not validate credentials" ∧
    (k ≠ secret →
      decode_access_token secret now (.signed c k) =
        .error "Could not validate credentials") ∧
    (c.exp ≤ now →
      decode_access_token secret now (.signed c secret) =
        .error "Could not validate credentials") ∧
    (c.tokType ≠ "access" →
      decode_access_token secret now (.signed c secret) =
        .error "Could not validate credentials") ∧
    (now < c.exp → c.tokType = "access" →
      decode_access_token secret now (.signed c secret) = .ok c) := by
  refine ⟨rfl, ?_, ?_, ?_, ?_⟩
  · intro hk
    simp [decode_access_token, decode_token, jwtDecode, hk]
  · intro hexp
    have hlt : ¬ now < c.exp := Nat.not_lt.mpr hexp
    simp [decode_access_token, decode_token, jwtDecode, hlt]
  · intro hty
    by_cases hlt : now < c.exp
    · simp [decode_access_token, decode_token, jwtDecode, hlt, hty]
    · simp [decode_access_token, decode_token, jwtDecode, hlt]
  · intro hlt hty
    simp [decode_access_token, decode_token, jwtDecode, hlt, hty]

/-- Witness for C5: secret "s", wrong key "w", claims expiring at 100,
evaluated at times 200 (expired) and 50 (valid). -/
theorem decode_access_token_fails_closed_witness :
    (decode_access_token "s" 200 .malformed = .error "Could not validate credentials" ∧
      decode_access_token "s" 200 (.signed ⟨"1", 0, 100, "access"⟩ "w") =
        .error "Could not validate credentials" ∧
      decode_access_token "s" 200 (.signed ⟨"1", 0, 100, "access"⟩ "s") =
        .error "Could not validate credentials") ∧
    decode_access_token "s" 50 (.signed ⟨"1", 0, 100, "refresh"⟩ "s") =
      .error "Could not validate credentials" ∧
    decode_access_token "s" 50 (.signed ⟨"1", 0, 100, "access"⟩ "s") =
      .ok ⟨"1", 0, 100, "access"⟩ :=
  ⟨⟨(decode_access_token_fails_closed "s" "w" 200 ⟨"1", 0, 100, "access"⟩).1,
    (decode_access_token_fails_closed "s" "w" 200 ⟨"1", 0, 100, "access"⟩).2.1 (by decide),
    (decode_access_token_fails_closed "s" "w" 200 ⟨"1", 0, 100, "access"⟩).2.2.1 (by decide)⟩,
   (decode_access_token_fails_closed "s" "w" 50 ⟨"1", 0, 100, "refresh"⟩).2.2.2.1 (by decide),
   (decode_access_token_fails_closed "s" "w" 50 ⟨"1", 0, 100, "access"⟩).2.2.2.2
     (by decide) (by decide)⟩

/-- C9: when the target animal id matches no Animal row, mutual-match
detection returns (none, created=false) without an error and leaves the
state untouched. -/
theorem detect_mutual_like_absent_animal (db : MatchDB) (from_user_id target_animal_id : Nat)
    (h : ∀ a ∈ db.animals, a.id ≠ target_animal_id) :
    detect_mutual_like_and_create_match db from_user_id target_animal_id =
      .ok (db, none, false) := by
  have hfind : db.animals.find? (fun a => a.id == target_animal_id) = none := by
    rw [List.find?_eq_none]
    intro a ha
    simp [h a ha]
  simp [detect_mutual_like_and_create_match, hfind]

/-- Witness for C9: one animal with id 1, target id 2. -/
theorem detect_mutual_like_absent_animal_witness :
    detect_mutual_like_and_create_match
        ⟨[⟨1, 5, "active"⟩], [], [], 0, 0⟩ 7 2 =
      .ok (⟨[⟨1, 5, "active"⟩], [], [], 0, 0⟩, none, false) :=
  detect_mutual_like_absent_animal ⟨[⟨1, 5, "active"⟩], [], [], 0, 0⟩ 7 2 (by decide)

/-- C8: revoke_session is safe to retry: a second revoke of the same row
absorbs into a single revoke (with the latest arguments; with identical
arguments the states are literally equal), and once revoked the row stays
non-current, revoked and inactive. -/
theorem revoke_session_idempotent (db : SessionDB) (t1 t2 sid : Nat) (r1 r2 : String) :
    revoke_session (revoke_session db t1 sid r1) t2 sid r2 = revoke_session db t2 sid r2 ∧
    revoke_session (revoke_session db t1 sid r1) t1 sid r1 = revoke_session db t1 sid r1 ∧
    (∀ x ∈ (revoke_session db t1 sid r1).sessions, x.id = sid →
      x.is_current = false ∧ x.revoked_at = some t1 ∧ x.revoke_reason = some r1 ∧
      ∀ t, isActiveSession t x = false) := by
  have absorb : ∀ ta tb : Nat, ∀ ra rb : String,
      revoke_session (revoke_session db ta sid ra) tb sid rb = revoke_session db tb sid rb := by
    intro ta tb ra rb
    unfold revoke_session
    simp only [List.map_map]
    congr 1
    refine List.map_congr_left ?_
    intro s _
    by_cases h : s.id == sid <;> simp [Function.comp, h]
  refine ⟨absorb t1 t2 r1 r2, absorb t1 t1 r1 r1, ?_⟩
  intro x hx hid
  unfold revoke_session at hx
  simp only [List.mem_map] at hx
  obtain ⟨y, _, hy⟩ := hx
  by_cases h : y.id == sid
  · rw [if_pos h] at hy
    subst hy
    refine ⟨rfl, rfl, rfl, ?_⟩
    intro t
    simp [isActiveSession]
  · rw [if_neg h] at hy
    subst hy
    exact absurd (by simp [hid] : (y.id == sid) = true) h

/-- Witness for C8 (the conjunct with the membership hypothesis) on a
one-session store. -/
theorem revoke_session_idempotent_witness :
    (revoke_session (revoke_session ⟨[⟨1, 1, none, "h", 100, none, none, true, none, none,
        none⟩], 2⟩ 5 1 "logout") 9 1 "expired" =
      revoke_session ⟨[⟨1, 1, none, "h", 100, none, none, true, none, none, none⟩], 2⟩
        9 1 "expired") ∧
    ((⟨1, 1, none, "h", 100, none, none, false, some 5, some "logout", none⟩ : UserSession).is_current
        = false ∧
      (⟨1, 1, none, "h", 100, none, none, false, some 5, some "logout", none⟩ :
          UserSession).revoked_at = some 5 ∧
      (⟨1, 1, none, "h", 100, none, none, false, some 5, some "logout", none⟩ :
          UserSession).revoke_reason = some "logout" ∧
      ∀ t, isActiveSession t
          ⟨1, 1, none, "h", 100, none, none, false, some 5, some "logout", none⟩ = false) :=
  ⟨(revoke_session_idempotent
      ⟨[⟨1, 1, none, "h", 100, none, none, true, none, none, none⟩], 2⟩ 5 9 1 "logout"
      "expired").1,
   (revoke_session_idempotent
      ⟨[⟨1, 1, none, "h", 100, none, none, true, none, none, none⟩], 2⟩ 5 9 1 "logout"
      "expired").2.2
     ⟨1, 1, none, "h", 100, none, none, false, some 5, some "logout", none⟩
     (by decide) rfl⟩

/-- C3 counterexample: a current, unrevoked session whose
refresh_expires_at (10) lies in the past at clock 50 is still returned by
get_session_by_refresh_token — the lookup filters only on is_current and
revoked_at, so it does not return none for expired sessions. -/
theorem get_session_returns_expired_session :
    get_session_by_refresh_token expiredSessDB 1 "t1" = some expiredSessRow ∧
    expiredSessRow.refresh_expires_at < 50 ∧
    isActiveSession 50 expiredSessRow = false :=
  ⟨rfl, by decide, by decide⟩

/-- C3 (amended): the lookup returns the expired session rather than none;
the refresh endpoint then detects refresh_expires_at < now, revokes that
session with reason expired, and rejects with 401 Refresh token expired —
the caller never sees a success. -/
theorem refresh_expired_revokes_then_rejects (db : SessionDB) (now uid ne : Nat)
    (tok nt : String) (s : UserSession)
    (h1 : get_session_by_refresh_token db uid tok = some s)
    (hexp : s.refresh_expires_at < now) :
    refresh_tokens db now uid tok nt ne =
      (revoke_session db now s.id "expired", .http401 "Refresh token expired") ∧
    ∀ x ∈ (revoke_session db now s.id "expired").sessions, x.id = s.id →
      x.is_current = false ∧ x.revoked_at = some now ∧ x.revoke_reason = some "expired" ∧
      ∀ t, isActiveSession t x = false := by
  obtain ⟨hmem, huid, hcur, hrev, hverify⟩ := get_session_found_facts h1
  refine ⟨?_, revoke_session_mem_facts db now s.id "expired"⟩
  have hcond : ¬ (¬ s.is_current = true ∨ s.revoked_at ≠ none) := by
    simp [hcur, hrev]
  simp only [refresh_tokens, h1]
  rw [if_neg hcond, if_pos hexp]

/-- Witness for C3's amended theorem on the expired fixture. -/
theorem refresh_expired_revokes_then_rejects_witness :
    refresh_tokens expiredSessDB 50 1 "t1" "t2" 200 =
      (revoke_session expiredSessDB 50 expiredSessRow.id "expired",
        .http401 "Refresh token expired") ∧
    ∀ x ∈ (revoke_session expiredSessDB 50 expiredSessRow.id "expired").sessions,
      x.id = expiredSessRow.id →
      x.is_current = false ∧ x.revoked_at = some 50 ∧ x.revoke_reason = some "expired" ∧
      ∀ t, isActiveSession t x = false :=
  refresh_expired_revokes_then_rejects expiredSessDB 50 1 200 "t1" "t2" expiredSessRow
    rfl (by decide)

/-- C4 counterexample: rotating the only active session of a lineage
through the code's two separate commits leaves, after the revoke commit
and before the create commit, an observable state with zero ACTIVE
sessions for the lineage (the lineage had exactly one before and one
after). -/
theorem rotation_intermediate_zero_active :
    lineageActiveCount rotDB 50 1 2 = 1 ∧
    lineageActiveCount (rotationStates rotDB 50 rotOldSession "t2" 200).1 50 1 2 = 0 ∧
    lineageActiveCount (rotationStates rotDB 50 rotOldSession "t2" 200).2 50 1 2 = 1 := by
  decide

/-- The state right after create_session's commit holds exactly one ACTIVE
lineage session when the state before held none and the new expiry is in
the future. -/
theorem lineage_after_create_one (db : SessionDB) (now exp sid uid : Nat)
    (dev : Option Nat) (tok : String) (ip ua : Option String)
    (hnil : lineageActiveCount db now sid db.nextSessionId = 0)
    (hnow : now < exp) :
    lineageActiveCount (create_session db now uid dev tok exp ip ua).1 now sid
      db.nextSessionId = 1 := by
  unfold lineageActiveCount at hnil ⊢
  rw [List.length_eq_zero] at hnil
  unfold create_session
  simp only []
  rw [List.filter_append, hnil]
  simp [isActiveSession, hnow]

/-- C4 (amended): the rotation inside refresh_tokens commits its revoke
and its create separately; after the revoke commit the lineage has zero
ACTIVE sessions, after the create commit exactly one, and no observable
state ever holds two ACTIVE sessions for the lineage. -/
theorem rotation_commit_window (db : SessionDB) (now exp : Nat) (s : UserSession)
    (newtok : String)
    (hfresh : ∀ x ∈ db.sessions, x.id ≠ db.nextSessionId)
    (hnow : now < exp)
    (hinit : lineageActiveCount db now s.id db.nextSessionId ≤ 1) :
    lineageActiveCount (rotationStates db now s newtok exp).1 now s.id db.nextSessionId
        = 0 ∧
    lineageActiveCount (rotationStates db now s newtok exp).2 now s.id db.nextSessionId
        = 1 ∧
    lineageActiveCount db now s.id db.nextSessionId ≤ 1 ∧
    lineageActiveCount (rotationStates db now s newtok exp).1 now s.id db.nextSessionId
        ≤ 1 ∧
    lineageActiveCount (rotationStates db now s newtok exp).2 now s.id db.nextSessionId
        ≤ 1 := by
  have hmid : lineageActiveCount (rotationStates db now s newtok exp).1 now s.id
      db.nextSessionId = 0 :=
    lineage_after_revoke_zero db now s.id db.nextSessionId "rotation" hfresh
  have hfin : lineageActiveCount (rotationStates db now s newtok exp).2 now s.id
      db.nextSessionId = 1 :=
    lineage_after_create_one (revoke_session db now s.id "rotation") now exp s.id
      s.user_id s.device_id newtok s.ip_address s.user_agent hmid hnow
  exact ⟨hmid, hfin, hinit, by rw [hmid]; exact Nat.zero_le 1, by rw [hfin]⟩

/-- Witness for C4's amended theorem on the rotation fixture. -/
theorem rotation_commit_window_witness :
    lineageActiveCount (rotationStates rotDB 50 rotOldSession "t2" 200).1 50
        rotOldSession.id rotDB.nextSessionId = 0 ∧
    lineageActiveCount (rotationStates rotDB 50 rotOldSession "t2" 200).2 50
        rotOldSession.id rotDB.nextSessionId = 1 ∧
    lineageActiveCount rotDB 50 rotOldSession.id rotDB.nextSessionId ≤ 1 ∧
    lineageActiveCount (rotationStates rotDB 50 rotOldSession "t2" 200).1 50
        rotOldSession.id rotDB.nextSessionId ≤ 1 ∧
    lineageActiveCount (rotationStates rotDB 50 rotOldSession "t2" 200).2 50
        rotOldSession.id rotDB.nextSessionId ≤ 1 :=
  rotation_commit_window rotDB 50 200 rotOldSession "t2" (by decide) (by decide)
    (by decide)

/-- On distinct arguments the normalized pair is (min, max). -/
theorem normalize_pair_eq_min_max (a b : Nat) (h : a ≠ b) :
    _normalize_match_pair a b = .ok (min a b, max a b) := by
  unfold _normalize_match_pair
  rcases Nat.lt_trichotomy a b with hlt | heq | hgt
  · have hne : (a == b) = false := by simp [h]
    simp [hne, hlt, Nat.min_eq_left hlt.le, Nat.max_eq_right hlt.le]
  · exact absurd heq h
  · have hne : (a == b) = false := by simp [h]
    simp [hne, Nat.lt_asymm hgt, Nat.min_eq_right hgt.le, Nat.max_eq_left hgt.le]

/-- C1 counterexample: two get_or_create_match calls racing (both SELECTs
read the same snapshot before either INSERT commits) make the second
INSERT hit the unique constraint uq_user_matches_pair; the source wraps
the insert in no exception handler, so the violation propagates to the
caller instead of resolving to the existing row. -/
theorem get_or_create_match_race_propagates :
    get_or_create_match_race emptyMatchDB 1 2 2 1 =
      .error (.uniqueViolation "uq_user_matches_pair") := by
  rfl

/-- C1 (amended, sequential half): with no pre-existing row for the
normalized pair, the first call inserts that row and returns created=true;
a second sequential call in either argument order finds it and returns the
same row with created=false; exactly one row for the normalized pair
exists afterwards. -/
theorem get_or_create_match_sequential (db : MatchDB) (a b : Nat) (hab : a ≠ b)
    (hempty : matchesForPair db (min a b) (max a b) = []) :
    get_or_create_match db a b =
      .ok (gocmInsertedDB db (min a b) (max a b),
        ⟨db.nextMatchId, min a b, max a b⟩, true) ∧
    matchesForPair (gocmInsertedDB db (min a b) (max a b)) (min a b) (max a b) =
      [⟨db.nextMatchId, min a b, max a b⟩] ∧
    get_or_create_match (gocmInsertedDB db (min a b) (max a b)) a b =
      .ok (gocmInsertedDB db (min a b) (max a b),
        ⟨db.nextMatchId, min a b, max a b⟩, false) ∧
    get_or_create_match (gocmInsertedDB db (min a b) (max a b)) b a =
      .ok (gocmInsertedDB db (min a b) (max a b),
        ⟨db.nextMatchId, min a b, max a b⟩, false) := by
  have hnorm := normalize_pair_eq_min_max a b hab
  have hnorm' := normalize_pair_eq_min_max b a (Ne.symm hab)
  rw [Nat.min_comm b a, Nat.max_comm b a] at hnorm'
  have hforall : ∀ m ∈ db.user_matches,
      ¬ (m.user_id1 == min a b && m.user_id2 == max a b) = true := by
    rw [← List.filter_eq_nil_iff]
    exact hempty
  have hfind : db.user_matches.find?
      (fun m => m.user_id1 == min a b && m.user_id2 == max a b) = none :=
    List.find?_eq_none.mpr hforall
  have hany : db.user_matches.any
      (fun m => m.user_id1 == min a b && m.user_id2 == max a b) = false :=
    List.any_eq_false.mpr hforall
  have hpm : ((⟨db.nextMatchId, min a b, max a b⟩ : UserMatch).user_id1 == min a b &&
      (⟨db.nextMatchId, min a b, max a b⟩ : UserMatch).user_id2 == max a b) = true := by
    simp
  have hfind1 : (gocmInsertedDB db (min a b) (max a b)).user_matches.find?
      (fun m => m.user_id1 == min a b && m.user_id2 == max a b) =
      some ⟨db.nextMatchId, min a b, max a b⟩ := by
    unfold gocmInsertedDB
    rw [List.find?_append, hfind]
    simp only [Option.none_or]
    exact List.find?_cons_of_pos _ hpm
  refine ⟨?_, ?_, ?_, ?_⟩
  · simp only [get_or_create_match, gocmSelect, hnorm, gocmInsert, hfind, hany]
    rfl
  · unfold matchesForPair gocmInsertedDB
    simp only [List.filter_append]
    rw [show db.user_matches.filter
        (fun m => m.user_id1 == min a b && m.user_id2 == max a b) = [] from hempty]
    simp [hpm]
  · simp only [get_or_create_match, gocmSelect, hnorm, hfind1, gocmInsert]
  · simp only [get_or_create_match, gocmSelect, hnorm', hfind1, gocmInsert]

/-- Witness for C1's amended theorem: users 2 and 1 on the empty store. -/
theorem get_or_create_match_sequential_witness :
    get_or_create_match emptyMatchDB 2 1 =
      .ok (gocmInsertedDB emptyMatchDB (min 2 1) (max 2 1),
        ⟨emptyMatchDB.nextMatchId, min 2 1, max 2 1⟩, true) ∧
    matchesForPair (gocmInsertedDB emptyMatchDB (min 2 1) (max 2 1)) (min 2 1) (max 2 1) =
      [⟨emptyMatchDB.nextMatchId, min 2 1, max 2 1⟩] ∧
    get_or_create_match (gocmInsertedDB emptyMatchDB (min 2 1) (max 2 1)) 2 1 =
      .ok (gocmInsertedDB emptyMatchDB (min 2 1) (max 2 1),
        ⟨emptyMatchDB.nextMatchId, min 2 1, max 2 1⟩, false) ∧
    get_or_create_match (gocmInsertedDB emptyMatchDB (min 2 1) (max 2 1)) 1 2 =
      .ok (gocmInsertedDB emptyMatchDB (min 2 1) (max 2 1),
        ⟨emptyMatchDB.nextMatchId, min 2 1, max 2 1⟩, false) :=
  get_or_create_match_sequential emptyMatchDB 2 1 (by decide) rfl

/-- C2: rotating via refresh_tokens with a valid unexpired refresh token
revokes the old session (is_current=false, revoked_at set, reason
rotation, no longer ACTIVE), creates exactly one new ACTIVE session for
the lineage carrying forward device_id, ip and user_agent, and a
subsequent refresh presenting the old plaintext token is rejected with 401
Invalid refresh token. -/
theorem refresh_rotation_correct (db : SessionDB) (now exp uid : Nat)
    (tok newtok : String) (s : UserSession)
    (h1 : get_session_by_refresh_token db uid tok = some s)
    (h2 : ¬ s.refresh_expires_at < now)
    (h3 : ∀ x ∈ db.sessions, verify_refresh_token tok x.refresh_token_hash = true →
      x.id = s.id)
    (h4 : tok ≠ newtok)
    (h5 : now < exp)
    (hfresh : ∀ x ∈ db.sessions, x.id ≠ db.nextSessionId) :
    refresh_tokens db now uid tok newtok exp =
      ((rotationStates db now s newtok exp).2,
        .success (rotationNewSession db now s newtok exp).id) ∧
    (rotationNewSession db now s newtok exp).device_id = s.device_id ∧
    (rotationNewSession db now s newtok exp).ip_address = s.ip_address ∧
    (rotationNewSession db now s newtok exp).user_agent = s.user_agent ∧
    isActiveSession now (rotationNewSession db now s newtok exp) = true ∧
    (∀ x ∈ (rotationStates db now s newtok exp).2.sessions, x.id = s.id →
      x.is_current = false ∧ x.revoked_at = some now ∧
      x.revoke_reason = some "rotation" ∧ ∀ t, isActiveSession t x = false) ∧
    lineageActiveCount (rotationStates db now s newtok exp).2 now s.id
      db.nextSessionId = 1 ∧
    (∀ now2 newtok2 exp2,
      refresh_tokens (rotationStates db now s newtok exp).2 now2 uid tok newtok2 exp2 =
        ((rotationStates db now s newtok exp).2, .http401 "Invalid refresh token")) := by
  obtain ⟨hmem, huid, hcur, hrev, hverify⟩ := get_session_found_facts h1
  subst huid
  have hfs : (rotationStates db now s newtok exp).2.sessions =
      (revoke_session db now s.id "rotation").sessions ++
        [rotationNewSession db now s newtok exp] := rfl
  have hcond : ¬ (¬ s.is_current = true ∨ s.revoked_at ≠ none) := by
    simp [hcur, hrev]
  have hnone : get_session_by_refresh_token (rotationStates db now s newtok exp).2
      s.user_id tok = none := by
    unfold get_session_by_refresh_token
    rw [List.find?_eq_none]
    intro x hx
    rw [List.mem_filter] at hx
    obtain ⟨hmemx, hqx⟩ := hx
    rw [hfs] at hmemx
    rcases List.mem_append.mp hmemx with hmk | hnw
    · unfold revoke_session at hmk
      simp only [List.mem_map] at hmk
      obtain ⟨y, hy, hxy⟩ := hmk
      by_cases hyid : y.id == s.id
      · rw [if_pos hyid] at hxy
        subst hxy
        simp at hqx
      · rw [if_neg hyid] at hxy
        subst hxy
        intro hv
        exact hyid (by simp [h3 y hy hv])
    · simp only [List.mem_singleton] at hnw
      subst hnw
      intro hv
      have hnt : newtok = tok := by
        simpa [rotationNewSession, create_session, verify_refresh_token,
          hash_refresh_token] using hv
      exact h4 hnt.symm
  refine ⟨?_, rfl, rfl, rfl, ?_, ?_, ?_, ?_⟩
  · simp only [refresh_tokens, h1]
    rw [if_neg hcond, if_neg h2]
    rfl
  · simp [rotationNewSession, create_session, isActiveSession, h5]
  · intro x hx hid
    rw [hfs] at hx
    rcases List.mem_append.mp hx with hmk | hnw
    · exact revoke_session_mem_facts db now s.id "rotation" x hmk hid
    · simp only [List.mem_singleton] at hnw
      subst hnw
      exact absurd hid.symm (by
        simpa [rotationNewSession, create_session, revoke_session] using hfresh s hmem)
    -- the new row's id is the fresh autoincrement id, never the old id
  · have hmid0 := lineage_after_revoke_zero db now s.id db.nextSessionId "rotation" hfresh
    exact lineage_after_create_one (revoke_session db now s.id "rotation") now exp s.id
      s.user_id s.device_id newtok s.ip_address s.user_agent hmid0 h5
  · intro now2 newtok2 exp2
    simp only [refresh_tokens, hnone]

/-- Witness for C2 on the rotation fixture: user 1, old token t1 expiring
at 100, clock 50, new token t2 expiring at 200. -/
theorem refresh_rotation_correct_witness :
    refresh_tokens rotDB 50 1 "t1" "t2" 200 =
      ((rotationStates rotDB 50 rotOldSession "t2" 200).2,
        .success (rotationNewSession rotDB 50 rotOldSession "t2" 200).id) ∧
    (rotationNewSession rotDB 50 rotOldSession "t2" 200).device_id =
      rotOldSession.device_id ∧
    (rotationNewSession rotDB 50 rotOldSession "t2" 200).ip_address =
      rotOldSession.ip_address ∧
    (rotationNewSession rotDB 50 rotOldSession "t2" 200).user_agent =
      rotOldSession.user_agent ∧
    isActiveSession 50 (rotationNewSession rotDB 50 rotOldSession "t2" 200) = true ∧
    (∀ x ∈ (rotationStates rotDB 50 rotOldSession "t2" 200).2.sessions,
      x.id = rotOldSession.id →
      x.is_current = false ∧ x.revoked_at = some 50 ∧
      x.revoke_reason = some "rotation" ∧ ∀ t, isActiveSession t x = false) ∧
    lineageActiveCount (rotationStates rotDB 50 rotOldSession "t2" 200).2 50
      rotOldSession.id rotDB.nextSessionId = 1 ∧
    (∀ now2 newtok2 exp2,
      refresh_tokens (rotationStates rotDB 50 rotOldSession "t2" 200).2 now2 1 "t1"
          newtok2 exp2 =
        ((rotationStates rotDB 50 rotOldSession "t2" 200).2,
          .http401 "Invalid refresh token")) :=
  refresh_rotation_correct rotDB 50 200 1 "t1" "t2" rotOldSession rfl (by decide)
    (by decide) (by decide) (by decide) (by decide)

/-- Updating, by id, the single row that a filter selects replaces exactly
that row in the filtered view, provided ids are unique and the updated row
still satisfies the filter. -/
theorem filter_map_update (p : AnimalLike → Bool) (l : List AnimalLike)
    (e e' : AnimalLike)
    (hfil : l.filter p = [e]) (hnodup : (l.map (fun x => x.id)).Nodup)
    (hpe' : p e' = true) :
    (l.map (fun x => if x.id == e.id then e' else x)).filter p = [e'] := by
  induction l with
  | nil => simp at hfil
  | cons x xs ih =>
    rw [List.map_cons] at hnodup
    obtain ⟨hxnotin, hxsnodup⟩ := List.nodup_cons.mp hnodup
    by_cases hpx : p x = true
    · rw [List.filter_cons_of_pos hpx] at hfil
      injection hfil with hx hxs
      subst hx
      rw [List.map_cons, if_pos (beq_self_eq_true x.id)]
      have hmapxs : xs.map (fun y => if y.id == x.id then e' else y) = xs := by
        have hpt : ∀ y ∈ xs, (fun y => if y.id == x.id then e' else y) y = id y := by
          intro y hy
          have hyx : (y.id == x.id) = false := by
            rw [beq_eq_false_iff_ne]
            intro hEq
            exact hxnotin (hEq ▸ List.mem_map_of_mem (fun z => z.id) hy)
          simp [hyx]
        rw [List.map_congr_left hpt, List.map_id]
      rw [hmapxs, List.filter_cons_of_pos hpe', hxs]
    · rw [List.filter_cons_of_neg hpx] at hfil
      have hexs : e ∈ xs := List.mem_of_mem_filter (hfil ▸ List.mem_singleton.mpr rfl)
      have hxe : (x.id == e.id) = false := by
        rw [beq_eq_false_iff_ne]
        intro hEq
        exact hxnotin (hEq ▸ List.mem_map_of_mem (fun z => z.id) hexs)
      rw [List.map_cons, if_neg (by simp [hxe])]
      rw [List.filter_cons_of_neg hpx]
      exact ih hfil hxsnodup

/-- One create_or_update_like call on a well-formed store: validates the
result, leaves exactly one row for the pair carrying the new result and
the bumped updated_at, inserts only when no row existed, and preserves
well-formedness and the other tables. -/
theorem create_or_update_like_spec (db : MatchDB) (now u a : Nat) (r : String)
    (hr : r = "like" ∨ r = "dislike") (hwf : LikesWF db)
    (hpair : (likesForPair db u a).length ≤ 1) :
    ∃ db' lk, create_or_update_like db now u a r = .ok (db', lk) ∧
      likesForPair db' u a = [lk] ∧ lk.result = r ∧ lk.updated_at = now ∧
      db'.likes.length = db.likes.length +
        (if (likesForPair db u a).length = 0 then 1 else 0) ∧
      LikesWF db' ∧ db'.animals = db.animals ∧ db'.user_matches = db.user_matches := by
  have hcond : ¬ ¬ (r = "like" ∨ r = "dislike") := not_not_intro hr
  unfold create_or_update_like
  rw [if_neg hcond]
  cases hfind : db.likes.find? (fun l => l.from_user_id == u && l.animal_id == a) with
  | none =>
    have hnil : likesForPair db u a = [] := by
      unfold likesForPair
      rw [List.filter_eq_nil_iff]
      exact List.find?_eq_none.mp hfind
    refine ⟨_, _, rfl, ?_, rfl, rfl, ?_, ?_, rfl, rfl⟩
    · unfold likesForPair at hnil ⊢
      simp only [List.filter_append, hnil, List.nil_append]
      simp
    · rw [hnil]
      simp
    · constructor
      · intro l hl
        rcases List.mem_append.mp hl with hold | hnew
        · exact Nat.lt_succ_of_lt (hwf.1 l hold)
        · rw [List.mem_singleton.mp hnew]
          exact Nat.lt_succ_self _
      · rw [List.map_append, List.nodup_append]
        refine ⟨hwf.2, List.nodup_singleton _, ?_⟩
        intro i hi
        rw [List.mem_map] at hi
        obtain ⟨l, hl, hli⟩ := hi
        simp only [List.map_cons, List.map_nil, List.mem_singleton]
        intro hEq
        have hlt : i < db.nextLikeId := hli ▸ hwf.1 l hl
        exact Nat.ne_of_lt hlt hEq
  | some e =>
    have hpe := List.find?_some hfind
    have hmeme : e ∈ db.likes := List.mem_of_find?_eq_some hfind
    have hfil : likesForPair db u a = [e] := by
      have hememf : e ∈ likesForPair db u a := List.mem_filter.mpr ⟨hmeme, hpe⟩
      have hlen1 : (likesForPair db u a).length = 1 := by
        have hge : 1 ≤ (likesForPair db u a).length := by
          cases hcase : likesForPair db u a with
          | nil => rw [hcase] at hememf; exact absurd hememf (List.not_mem_nil e)
          | cons y ys => simp [hcase]
        omega
      obtain ⟨y, hy⟩ := List.length_eq_one.mp hlen1
      have hey : e = y := List.mem_singleton.mp (hy ▸ hememf)
      rw [hy, ← hey]
    refine ⟨_, _, rfl, ?_, rfl, rfl, ?_, ?_, rfl, rfl⟩
    · unfold likesForPair
      exact filter_map_update _ db.likes e _ hfil hwf.2 hpe
    · rw [hfil]
      simp [List.length_map]
    · constructor
      · intro l hl
        rw [List.mem_map] at hl
        obtain ⟨y, hy, hgy⟩ := hl
        by_cases hyid : y.id == e.id
        · rw [if_pos hyid] at hgy
          subst hgy
          exact hwf.1 e hmeme
        · rw [if_neg hyid] at hgy
          subst hgy
          exact hwf.1 y hy
      · have hids : (db.likes.map (fun l =>
            if l.id == e.id then { e with result := r, updated_at := now } else l)).map
              (fun l => l.id) = db.likes.map (fun l => l.id) := by
          rw [List.map_map]
          refine List.map_congr_left ?_
          intro y hy
          by_cases hyid : y.id == e.id
          · have hEq : y.id = e.id := beq_iff_eq.mp hyid
            simp [Function.comp, hyid, hEq]
          · simp [Function.comp, hyid]
        rw [hids]
        exact hwf.2

/-- A fold of valid create_or_update_like calls for one pair keeps exactly
one row for the pair, carrying the last call's result and timestamp, with
only the first call able to insert. -/
theorem runReactions_spec (u a : Nat) (calls : List (Nat × String)) :
    ∀ db : MatchDB, LikesWF db → (likesForPair db u a).length ≤ 1 →
    (∀ c ∈ calls, c.2 = "like" ∨ c.2 = "dislike") →
    ∀ last, calls.getLast? = some last →
    ∃ db' lk, runReactions db u a calls = .ok db' ∧
      likesForPair db' u a = [lk] ∧ lk.result = last.2 ∧ lk.updated_at = last.1 ∧
      db'.likes.length = db.likes.length +
        (if (likesForPair db u a).length = 0 then 1 else 0) := by
  induction calls with
  | nil =>
    intro db _ _ _ last hlast
    simp at hlast
  | cons c rest ih =>
    intro db hwf hpair hvalid last hlast
    obtain ⟨db1, lk1, hstep, hfil1, hres1, hupd1, hlen1, hwf1, _, _⟩ :=
      create_or_update_like_spec db c.1 u a c.2 (hvalid c (by simp)) hwf hpair
    cases rest with
    | nil =>
      rw [List.getLast?_singleton] at hlast
      have hc : c = last := by injection hlast
      subst hc
      refine ⟨db1, lk1, ?_, hfil1, hres1, hupd1, hlen1⟩
      simp [runReactions, hstep]
    | cons c2 rest2 =>
      rw [List.getLast?_cons_cons] at hlast
      have hpair1 : (likesForPair db1 u a).length ≤ 1 := by
        rw [hfil1]
        simp
      obtain ⟨db2, lk2, hrun2, hfil2, hres2, hupd2, hlen2⟩ :=
        ih db1 hwf1 hpair1 (fun c' hc' => hvalid c' (by simp [hc'])) last hlast
      refine ⟨db2, lk2, ?_, hfil2, hres2, hupd2, ?_⟩
      · simp only [runReactions, hstep]
        exact hrun2
      · rw [hlen2, hlen1, hfil1]
        simp

/-- C6: for one (from_user_id, animal_id) pair on a well-formed store with
at most one row for the pair, any nonempty sequence of valid
record_reaction calls leaves exactly one AnimalLike row for the pair whose
result is the latest call's result and whose updated_at is the latest
call's time; only the first call can insert (repeat calls update in
place); a result outside like / dislike is rejected with ValueError and
the call returns no state. -/
theorem record_reaction_upsert (db : MatchDB) (u a : Nat)
    (hwf : LikesWF db) (hpair : (likesForPair db u a).length ≤ 1) :
    (∀ now r, ¬ (r = "like" ∨ r = "dislike") →
      create_or_update_like db now u a r =
        .error (.valueError "result must be like or dislike")) ∧
    (∀ calls last, calls.getLast? = some last →
      (∀ c ∈ calls, c.2 = "like" ∨ c.2 = "dislike") →
      ∃ db' lk, runReactions db u a calls = .ok db' ∧
        likesForPair db' u a = [lk] ∧ lk.result = last.2 ∧ lk.updated_at = last.1 ∧
        db'.likes.length = db.likes.length +
          (if (likesForPair db u a).length = 0 then 1 else 0)) := by
  constructor
  · intro now r hr
    unfold create_or_update_like
    rw [if_pos hr]
  · intro calls last hlast hvalid
    exact runReactions_spec u a calls db hwf hpair hvalid last hlast

/-- Witness for C6: like at time 5 then dislike at time 9 on the empty
store, plus rejection of an invalid result. -/
theorem record_reaction_upsert_witness :
    create_or_update_like emptyMatchDB 5 1 2 "meh" =
      .error (.valueError "result must be like or dislike") ∧
    (∃ db' lk, runReactions emptyMatchDB 1 2 [(5, "like"), (9, "dislike")] = .ok db' ∧
      likesForPair db' 1 2 = [lk] ∧ lk.result = (9, "dislike").2 ∧
      lk.updated_at = (9, "dislike").1 ∧
      db'.likes.length = emptyMatchDB.likes.length +
        (if (likesForPair emptyMatchDB 1 2).length = 0 then 1 else 0)) :=
  ⟨(record_reaction_upsert emptyMatchDB 1 2
      ⟨fun l hl => absurd hl (List.not_mem_nil l), List.nodup_nil⟩ (by decide)).1
      5 "meh" (by decide),
   (record_reaction_upsert emptyMatchDB 1 2
      ⟨fun l hl => absurd hl (List.not_mem_nil l), List.nodup_nil⟩ (by decide)).2
      [(5, "like"), (9, "dislike")] (9, "dislike") rfl (by decide)⟩

/-- C10: the public like and dislike endpoints reject with 404 any target
animal that is absent or not active — before any reaction is recorded (the
error is raised ahead of create_or_update_like, so no state is produced) —
and on success the target animal existed with status active and the
recorded reaction references exactly that animal. -/
theorem like_endpoints_require_active_animal (db : MatchDB) (now u aid : Nat) :
    ((∀ an ∈ db.animals, an.id = aid → an.status ≠ "active") →
      like_animal db now u aid = .error (.notFound "Animal not found") ∧
      dislike_animal db now u aid = .error (.notFound "Animal not found")) ∧
    (∀ db' res, like_animal db now u aid = .ok (db', res) →
      ∃ an, an ∈ db.animals ∧ an.id = aid ∧ an.status = "active" ∧
        res.animal_id = aid ∧ res.from_user_id = u) ∧
    (∀ db' res, dislike_animal db now u aid = .ok (db', res) →
      ∃ an, an ∈ db.animals ∧ an.id = aid ∧ an.status = "active" ∧
        res.animal_id = aid ∧ res.from_user_id = u) := by
  refine ⟨?_, ?_, ?_⟩
  · intro h
    cases hfind : db.animals.find? (fun x => x.id == aid) with
    | none => constructor <;> simp [like_animal, dislike_animal, hfind]
    | some an =>
      have hid : an.id = aid := by simpa using List.find?_some hfind
      have hmem := List.mem_of_find?_eq_some hfind
      have hstat : an.status ≠ "active" := h an hmem hid
      constructor <;> simp [like_animal, dislike_animal, hfind, hstat]
  · intro db' res hok
    cases hfind : db.animals.find? (fun x => x.id == aid) with
    | none => simp [like_animal, hfind] at hok
    | some an =>
      have hid : an.id = aid := by simpa using List.find?_some hfind
      have hmem := List.mem_of_find?_eq_some hfind
      by_cases hstat : an.status = "active"
      · refine ⟨an, hmem, hid, hstat, ?_⟩
        simp only [like_animal, hfind] at hok
        rw [if_neg (not_not_intro hstat)] at hok
        by_cases howner : (an.owner_user_id == u) = true
        · rw [if_pos howner] at hok
          simp at hok
        · rw [if_neg howner] at hok
          cases hcreate : create_or_update_like db now u an.id "like" with
          | error e =>
            simp only [hcreate] at hok
            simp at hok
          | ok p =>
            obtain ⟨db1, lk⟩ := p
            simp only [hcreate] at hok
            cases hdetect : detect_mutual_like_and_create_match db1 u an.id with
            | error e =>
              simp only [hdetect] at hok
              simp at hok
            | ok q =>
              obtain ⟨db2, mtch, created⟩ := q
              simp only [hdetect] at hok
              simp only [Except.ok.injEq, Prod.mk.injEq] at hok
              rw [← hok.2]
              exact ⟨hid, rfl⟩
      · simp only [like_animal, hfind] at hok
        rw [if_pos hstat] at hok
        simp at hok
  · intro db' res hok
    cases hfind : db.animals.find? (fun x => x.id == aid) with
    | none => simp [dislike_animal, hfind] at hok
    | some an =>
      have hid : an.id = aid := by simpa using List.find?_some hfind
      have hmem := List.mem_of_find?_eq_some hfind
      by_cases hstat : an.status = "active"
      · refine ⟨an, hmem, hid, hstat, ?_⟩
        simp only [dislike_animal, hfind] at hok
        rw [if_neg (not_not_intro hstat)] at hok
        by_cases howner : (an.owner_user_id == u) = true
        · rw [if_pos howner] at hok
          simp at hok
        · rw [if_neg howner] at hok
          cases hcreate : create_or_update_like db now u an.id "dislike" with
          | error e =>
            simp only [hcreate] at hok
            simp at hok
          | ok p =>
            obtain ⟨db1, lk⟩ := p
            simp only [hcreate] at hok
            simp only [Except.ok.injEq, Prod.mk.injEq] at hok
            rw [← hok.2]
            exact ⟨hid, rfl⟩
      · simp only [dislike_animal, hfind] at hok
        rw [if_pos hstat] at hok
        simp at hok

/-- Witness for C10: rejection on the inactive animal, and success facts
on the active animal for both endpoints. -/
theorem like_endpoints_require_active_animal_witness :
    (like_animal hiddenAnimalDB 5 1 3 = .error (.notFound "Animal not found") ∧
      dislike_animal hiddenAnimalDB 5 1 3 = .error (.notFound "Animal not found")) ∧
    (∃ an, an ∈ activeAnimalDB.animals ∧ an.id = 3 ∧ an.status = "active" ∧
      (⟨3, 1, "like", false, none, none⟩ : AnimalLikeResult).animal_id = 3 ∧
      (⟨3, 1, "like", false, none, none⟩ : AnimalLikeResult).from_user_id = 1) ∧
    (∃ an, an ∈ activeAnimalDB.animals ∧ an.id = 3 ∧ an.status = "active" ∧
      (⟨3, 1, "dislike", false, none, none⟩ : AnimalLikeResult).animal_id = 3 ∧
      (⟨3, 1, "dislike", false, none, none⟩ : AnimalLikeResult).from_user_id = 1) :=
  ⟨(like_endpoints_require_active_animal hiddenAnimalDB 5 1 3).1 (by decide),
   (like_endpoints_require_active_animal activeAnimalDB 5 1 3).2.1 activeAnimalLikedDB
     ⟨3, 1, "like", false, none, none⟩ rfl,
   (like_endpoints_require_active_animal activeAnimalDB 5 1 3).2.2 activeAnimalDislikedDB
     ⟨3, 1, "dislike", false, none, none⟩ rfl⟩

end App
